import Mathlib

/-!
Shallow embedding of `src/main.py`: a Flask webhook relay for a Telegram bot.
The handler `handle_update` classifies the incoming text by fixed command
prefixes and calls one of three capability clients (`chatgpt_reply`,
`generate_image`, `text_to_speech_save`); replies go out through the bot's
send calls.  External outcomes (provider success/failure, whether each
outbound send call raises) are supplied by an `Env`; outbound calls and the
set of temporary files on disk are tracked in a `Trace`.  An exception that
escapes the Python handler is modelled by `Except.error` carrying the trace
at the moment it escaped.
-/

/-- One incoming Telegram message as `handle_update` reads it:
`message.chat.id`, `message.from_user.username` (logging only) and
`message.text`; `text = none` models a non-text message (photo, sticker). -/
structure IncomingMessage where
  chatId : Int
  fromUser : Option String
  text : Option String
  deriving Repr, DecidableEq

/-- The JSON body handed to `handle_update`: either `telegram.Update.de_json`
raises (`malformed`), or it yields an update whose `message` may be absent. -/
inductive Payload where
  | malformed : Payload
  | parsed : Option IncomingMessage → Payload
  deriving Repr, DecidableEq

/-- An observable outbound action: a Telegram send call or a capability-client
call to an external provider.  Temporary files are named by `Nat` ids. -/
inductive Effect where
  | sendMessage (chat_id : Int) (text : String)
  | sendPhotoUrl (chat_id : Int) (url : String) (caption : String)
  | sendPhotoBytes (chat_id : Int) (file : Nat) (caption : String)
  | sendAudio (chat_id : Int) (file : Nat) (timeout : Nat)
  | sendChatAction (chat_id : Int)
  | chatCompletionCall (prompt : String)
  | imageGenCall (prompt : String) (size : String)
  | ttsCall (text : String) (lang : String)
  deriving Repr, DecidableEq

/-- Outcome of the `openai.Image.create` call inside `generate_image`:
on success the SDK response may carry `url` and/or `b64_json`; `err` is any
raised exception. -/
inductive ImageOutcome where
  | ok (url : Option String) (b64 : Option String)
  | err
  deriving Repr, DecidableEq

/-- Outcome of the gTTS work inside `text_to_speech_save`: `ok` means
`tts.save` succeeded; `failBeforeFile` is an exception raised before
`tempfile.mkstemp` ran; `failAfterFile` is `tts.save` raising after the
temporary file was already created. -/
inductive TtsOutcome where
  | ok
  | failBeforeFile
  | failAfterFile
  deriving Repr, DecidableEq

/-- The behaviour of the external world for one request: the provider
outcomes and whether each Telegram send call returns normally (`true`) or
raises (`false`). -/
structure Env where
  chatOutcome : Option String
  imageOutcome : ImageOutcome
  ttsOutcome : TtsOutcome
  sendMessageOk : Bool
  sendPhotoOk : Bool
  sendAudioOk : Bool
  sendChatActionOk : Bool
  deriving Repr, DecidableEq

/-- Request-scoped observable state: outbound calls made so far, the ids of
temporary files currently existing on disk, and a fresh-name counter. -/
structure Trace where
  effects : List Effect
  files : List Nat
  nextId : Nat
  deriving Repr, DecidableEq

/-- The empty trace at the start of a request. -/
def Trace.empty : Trace := ⟨[], [], 0⟩

/-- Result of running the handler: `response = some body` when it returned
normally, `none` when an exception escaped; plus the final trace. -/
structure Outcome where
  response : Option String
  trace : Trace
  deriving Repr, DecidableEq

/-- HTTP result of a Flask route: a 200 body, `abort(404)`, `abort(403)`,
or a 500 caused by an exception escaping the handler. -/
inductive HttpResponse where
  | okBody (body : String)
  | notFound
  | forbidden
  | serverError
  deriving Repr, DecidableEq

/-- Python `text.startswith(p)`: character-sequence prefix test. -/
def startswith (s p : String) : Bool := List.isPrefixOf p.data s.data

/-- Characters removed by Python `str.strip()` (ASCII whitespace; the
embedding restricts to the ASCII range). -/
def isSpaceChar (c : Char) : Bool :=
  c = ' ' || c = '\t' || c = '\n' || c = '\r' || c = '\x0b' || c = '\x0c'

/-- Python `str.strip()` on the character list. -/
def stripChars (l : List Char) : List Char :=
  ((l.dropWhile isSpaceChar).reverse.dropWhile isSpaceChar).reverse

/-- Python `s.strip()`. -/
def strip (s : String) : String := ⟨stripChars s.data⟩

/-- Everything after the first space, or `[]` when there is no space:
the character-level core of Python `s.partition(" ")[2]`. -/
def afterFirstSpace : List Char → List Char
  | [] => []
  | c :: cs => if c = ' ' then cs else afterFirstSpace cs

/-- Python `text.partition(" ")[2]`. -/
def partitionAfter (s : String) : String := ⟨afterFirstSpace s.data⟩

/-- Python truthiness of an optional string (`if WEBHOOK_SECRET:`):
`None` and `""` are falsy. -/
def py_truthy : Option String → Bool
  | none => false
  | some s => !(s == "")

/-- Python falsiness of `url_or_b64` in `if not url_or_b64:`. -/
def py_not_str : Option String → Bool
  | none => true
  | some s => s == ""

/-- Python `a or b` on two optional strings (`.get("url") or .get("b64_json")`):
the left value unless it is `None` or `""`. -/
def py_or_str : Option String → Option String → Option String
  | some s, b => if s == "" then b else some s
  | none, b => b

/-- A Telegram send call: the call is attempted (recorded), then either
returns normally or raises, which nothing in `handle_update` catches. -/
def trySend (ok : Bool) (e : Effect) (t : Trace) : Except Trace Trace :=
  let t' : Trace := ⟨t.effects ++ [e], t.files, t.nextId⟩
  if ok then Except.ok t' else Except.error t'

/-- Python `os.unlink(path)`. -/
def unlink (fid : Nat) (t : Trace) : Trace :=
  ⟨t.effects, t.files.filter (fun x => x != fid), t.nextId⟩

/-- `chatgpt_reply` from `main.py`: one ChatCompletion call; on success the
stripped text of the first choice, on any exception a fixed Spanish fallback
string. -/
def chatgpt_reply (env : Env) (prompt : String) (t : Trace) : String × Trace :=
  let t' : Trace := ⟨t.effects ++ [Effect.chatCompletionCall prompt], t.files, t.nextId⟩
  match env.chatOutcome with
  | some content => (strip content, t')
  | none => ("Lo siento, ocurrió un error al procesar la respuesta.", t')

/-- `generate_image` from `main.py`: one `openai.Image.create` call; returns
`data[0].get("url") or data[0].get("b64_json")`, or `None` on exception. -/
def generate_image (env : Env) (prompt : String) (size : String) (t : Trace) :
    Option String × Trace :=
  let t' : Trace := ⟨t.effects ++ [Effect.imageGenCall prompt size], t.files, t.nextId⟩
  match env.imageOutcome with
  | ImageOutcome.ok url b64 => (py_or_str url b64, t')
  | ImageOutcome.err => (none, t')

/-- `text_to_speech_save` from `main.py`: `gTTS(...)`, then `mkstemp`, then
`tts.save(path)`; returns the path on success and `None` on exception.  If
the exception strikes after `mkstemp`, the temporary file stays on disk. -/
def text_to_speech_save (env : Env) (text lang : String) (t : Trace) :
    Option Nat × Trace :=
  match env.ttsOutcome with
  | TtsOutcome.ok =>
      (some t.nextId,
       ⟨t.effects ++ [Effect.ttsCall text lang], t.files ++ [t.nextId], t.nextId + 1⟩)
  | TtsOutcome.failBeforeFile =>
      (none, ⟨t.effects ++ [Effect.ttsCall text lang], t.files, t.nextId⟩)
  | TtsOutcome.failAfterFile =>
      (none, ⟨t.effects ++ [Effect.ttsCall text lang], t.files ++ [t.nextId], t.nextId + 1⟩)

/-- The fixed help text sent for `/start` and `/help`. -/
def help_text : String :=
  "Hola! Soy tu bot IA.\n\nComandos:\n/start /help - Mostrar ayuda\n/imagen <texto> - Generar imagen con IA\n/voz <texto> - Generar audio (mp3) con TTS\n\nSi escribes cualquier otra cosa, responderé usando ChatGPT."

/-- The body of `handle_update` in `main.py`, with the Python control flow
made explicit: `Except.ok` is a normal `return "OK"`, `Except.error` is an
exception escaping the function (only `Update.de_json` sits inside a try).
The base64 decode of a `b64_json` payload is abstracted: the decoded bytes
are identified with the temporary file that receives them. -/
def run_handle (env : Env) (payload : Payload) : Except Trace Trace :=
  match payload with
  | Payload.malformed => Except.ok Trace.empty
  | Payload.parsed none => Except.ok Trace.empty
  | Payload.parsed (some message) =>
    let chat_id := message.chatId
    let text := message.text.getD ""
    if startswith text "/start" || startswith text "/help" then
      trySend env.sendMessageOk (Effect.sendMessage chat_id help_text) Trace.empty
    else if startswith text "/imagen" then
      let prompt := strip (partitionAfter text)
      if prompt = "" then
        trySend env.sendMessageOk
          (Effect.sendMessage chat_id "Usa: /imagen <descripción de la imagen>") Trace.empty
      else
        match trySend env.sendMessageOk
            (Effect.sendMessage chat_id "Generando imagen... ⏳") Trace.empty with
        | Except.error t => Except.error t
        | Except.ok t1 =>
          match generate_image env prompt "1024x1024" t1 with
          | (url_or_b64, t2) =>
            if py_not_str url_or_b64 then
              trySend env.sendMessageOk
                (Effect.sendMessage chat_id
                  "No pude generar la imagen. Intenta de nuevo más tarde.") t2
            else
              let u := url_or_b64.getD ""
              if startswith u "http" then
                trySend env.sendPhotoOk
                  (Effect.sendPhotoUrl chat_id u ("Imagen: " ++ prompt)) t2
              else
                let fid := t2.nextId
                let t3 : Trace := ⟨t2.effects, t2.files ++ [fid], fid + 1⟩
                match trySend env.sendPhotoOk
                    (Effect.sendPhotoBytes chat_id fid ("Imagen: " ++ prompt)) t3 with
                | Except.error t => Except.error t
                | Except.ok t4 => Except.ok (unlink fid t4)
    else if startswith text "/voz" || startswith text "/tts" then
      let prompt := strip (partitionAfter text)
      if prompt = "" then
        trySend env.sendMessageOk
          (Effect.sendMessage chat_id "Usa: /voz <texto a convertir en audio>") Trace.empty
      else
        match trySend env.sendMessageOk
            (Effect.sendMessage chat_id "Generando audio... ⏳") Trace.empty with
        | Except.error t => Except.error t
        | Except.ok t1 =>
          match text_to_speech_save env prompt "es" t1 with
          | (none, t2) =>
            trySend env.sendMessageOk
              (Effect.sendMessage chat_id "No pude generar el audio. Intenta luego.") t2
          | (some fid, t2) =>
            match trySend env.sendAudioOk (Effect.sendAudio chat_id fid 120) t2 with
            | Except.error t => Except.error t
            | Except.ok t3 => Except.ok (unlink fid t3)
    else
      match trySend env.sendChatActionOk (Effect.sendChatAction chat_id) Trace.empty with
      | Except.error t => Except.error t
      | Except.ok t1 =>
        match chatgpt_reply env text t1 with
        | (reply, t2) => trySend env.sendMessageOk (Effect.sendMessage chat_id reply) t2

/-- `handle_update`: normal termination yields the `"OK"` body; an escaped
exception yields no body (Flask turns it into an error status). -/
def handle_update (env : Env) (payload : Payload) : Outcome :=
  match run_handle env payload with
  | Except.ok t => ⟨some "OK", t⟩
  | Except.error t => ⟨none, t⟩

/-- How Flask turns a finished handler into an HTTP response: the returned
body on normal termination, a 500 on an escaped exception. -/
def respond (o : Outcome) : HttpResponse × Trace :=
  match o.response with
  | some body => (HttpResponse.okBody body, o.trace)
  | none => (HttpResponse.serverError, o.trace)

/-- Route `POST /webhook` (`webhook_no_secret` in `main.py`): rejected with
404 whenever `WEBHOOK_SECRET` is truthy, else dispatches. -/
def webhook_no_secret (secret_cfg : Option String) (env : Env) (payload : Payload) :
    HttpResponse × Trace :=
  if py_truthy secret_cfg then (HttpResponse.notFound, Trace.empty)
  else respond (handle_update env payload)

/-- Route `POST /webhook/<secret>` (`webhook_with_secret` in `main.py`):
403 when no truthy secret is configured or the segment mismatches. -/
def webhook_with_secret (secret_cfg : Option String) (secret : String)
    (env : Env) (payload : Payload) : HttpResponse × Trace :=
  if !(py_truthy secret_cfg) || secret != secret_cfg.getD "" then
    (HttpResponse.forbidden, Trace.empty)
  else respond (handle_update env payload)

/-- Is an effect a capability-client call (chat, image or TTS provider)? -/
def Effect.isCapabilityCall : Effect → Bool
  | Effect.chatCompletionCall _ => true
  | Effect.imageGenCall _ _ => true
  | Effect.ttsCall _ _ => true
  | _ => false

/-- Is an effect a chat-completion call? -/
def Effect.isChatCall : Effect → Bool
  | Effect.chatCompletionCall _ => true
  | _ => false

/-- Is an effect an image-generation call? -/
def Effect.isImageCall : Effect → Bool
  | Effect.imageGenCall _ _ => true
  | _ => false

/-- Is an effect a speech-synthesis call? -/
def Effect.isTtsCall : Effect → Bool
  | Effect.ttsCall _ _ => true
  | _ => false

/-- Is an effect an outbound Telegram platform call? -/
def Effect.isPlatformSend : Effect → Bool
  | Effect.sendMessage _ _ => true
  | Effect.sendPhotoUrl _ _ _ => true
  | Effect.sendPhotoBytes _ _ _ => true
  | Effect.sendAudio _ _ _ => true
  | Effect.sendChatAction _ => true
  | _ => false

/-- An environment where every provider and every send call succeeds and the
image provider returns a public URL. -/
def allOk : Env :=
  ⟨some "¡Hola!", ImageOutcome.ok (some "https://img.example/x.png") none,
   TtsOutcome.ok, true, true, true, true⟩

/-! ### Helper lemmas about prefix matching and `partition` -/

theorem isPrefixOf_nil (l : List Char) : List.isPrefixOf ([] : List Char) l = true := by
  cases l <;> rfl

theorem isPrefixOf_exists : ∀ (p l : List Char), List.isPrefixOf p l = true → ∃ t, l = p ++ t := by
  intro p
  induction p with
  | nil => exact fun l _ => ⟨l, rfl⟩
  | cons a as ih =>
    intro l h
    cases l with
    | nil => simp [List.isPrefixOf] at h
    | cons b bs =>
      simp only [List.isPrefixOf, Bool.and_eq_true, beq_iff_eq] at h
      obtain ⟨rfl, h2⟩ := h
      obtain ⟨t, ht⟩ := ih bs h2
      exact ⟨t, by rw [ht]; rfl⟩

theorem startswith_exists {text p : String} (h : startswith text p = true) :
    ∃ r, text = String.mk (p.data ++ r) := by
  obtain ⟨t, ht⟩ := isPrefixOf_exists p.data text.data h
  refine ⟨t, ?_⟩
  cases text with
  | mk l => exact congrArg String.mk ht

theorem sw_imagen_exists {text : String} (h : startswith text "/imagen" = true) :
    ∃ r, text = String.mk ('/' :: 'i' :: 'm' :: 'a' :: 'g' :: 'e' :: 'n' :: r) :=
  startswith_exists h

theorem sw_voz_exists {text : String} (h : startswith text "/voz" = true) :
    ∃ r, text = String.mk ('/' :: 'v' :: 'o' :: 'z' :: r) :=
  startswith_exists h

theorem sw_tts_exists {text : String} (h : startswith text "/tts" = true) :
    ∃ r, text = String.mk ('/' :: 't' :: 't' :: 's' :: r) :=
  startswith_exists h

@[simp] theorem sw_imagen_not_start (r : List Char) :
    startswith (String.mk ('/' :: 'i' :: 'm' :: 'a' :: 'g' :: 'e' :: 'n' :: r)) "/start" = false := rfl

@[simp] theorem sw_imagen_not_help (r : List Char) :
    startswith (String.mk ('/' :: 'i' :: 'm' :: 'a' :: 'g' :: 'e' :: 'n' :: r)) "/help" = false := rfl

@[simp] theorem sw_imagen_self (r : List Char) :
    startswith (String.mk ('/' :: 'i' :: 'm' :: 'a' :: 'g' :: 'e' :: 'n' :: r)) "/imagen" = true := by
  simp [startswith, List.isPrefixOf, isPrefixOf_nil]

@[simp] theorem pa_imagen (r : List Char) :
    partitionAfter (String.mk ('/' :: 'i' :: 'm' :: 'a' :: 'g' :: 'e' :: 'n' :: r))
      = String.mk (afterFirstSpace r) := rfl

@[simp] theorem sw_voz_not_start (r : List Char) :
    startswith (String.mk ('/' :: 'v' :: 'o' :: 'z' :: r)) "/start" = false := rfl

@[simp] theorem sw_voz_not_help (r : List Char) :
    startswith (String.mk ('/' :: 'v' :: 'o' :: 'z' :: r)) "/help" = false := rfl

@[simp] theorem sw_voz_not_imagen (r : List Char) :
    startswith (String.mk ('/' :: 'v' :: 'o' :: 'z' :: r)) "/imagen" = false := rfl

@[simp] theorem sw_voz_self (r : List Char) :
    startswith (String.mk ('/' :: 'v' :: 'o' :: 'z' :: r)) "/voz" = true := by
  simp [startswith, List.isPrefixOf, isPrefixOf_nil]

@[simp] theorem pa_voz (r : List Char) :
    partitionAfter (String.mk ('/' :: 'v' :: 'o' :: 'z' :: r)) = String.mk (afterFirstSpace r) := rfl

@[simp] theorem sw_tts_not_start (r : List Char) :
    startswith (String.mk ('/' :: 't' :: 't' :: 's' :: r)) "/start" = false := rfl

@[simp] theorem sw_tts_not_help (r : List Char) :
    startswith (String.mk ('/' :: 't' :: 't' :: 's' :: r)) "/help" = false := rfl

@[simp] theorem sw_tts_not_imagen (r : List Char) :
    startswith (String.mk ('/' :: 't' :: 't' :: 's' :: r)) "/imagen" = false := rfl

@[simp] theorem sw_tts_not_voz (r : List Char) :
    startswith (String.mk ('/' :: 't' :: 't' :: 's' :: r)) "/voz" = false := rfl

@[simp] theorem sw_tts_self (r : List Char) :
    startswith (String.mk ('/' :: 't' :: 't' :: 's' :: r)) "/tts" = true := by
  simp [startswith, List.isPrefixOf, isPrefixOf_nil]

@[simp] theorem pa_tts (r : List Char) :
    partitionAfter (String.mk ('/' :: 't' :: 't' :: 's' :: r)) = String.mk (afterFirstSpace r) := rfl

@[simp] theorem sw_empty_start : startswith "" "/start" = false := rfl

@[simp] theorem sw_empty_help : startswith "" "/help" = false := rfl

@[simp] theorem sw_empty_imagen : startswith "" "/imagen" = false := rfl

@[simp] theorem sw_empty_voz : startswith "" "/voz" = false := rfl

@[simp] theorem sw_empty_tts : startswith "" "/tts" = false := rfl

/-- Claim C8: a payload that fails to deserialize, or one whose update has no
message, produces no outbound platform call and the handler still returns the
`"OK"` acknowledgment body. -/
theorem C8_noop_ack (env : Env) :
    handle_update env Payload.malformed = ⟨some "OK", Trace.empty⟩ ∧
    handle_update env (Payload.parsed none) = ⟨some "OK", Trace.empty⟩ ∧
    (handle_update env Payload.malformed).trace.effects.filter Effect.isPlatformSend = [] ∧
    (handle_update env (Payload.parsed none)).trace.effects.filter Effect.isPlatformSend = [] :=
  ⟨rfl, rfl, rfl, rfl⟩

/-- Claim C10: command matching is a raw leading-substring check; the text
`"/imagenes lindas"` takes the image branch with prompt `"lindas"` (the
substring after the first space), and `"/helpme"` produces the help text. -/
theorem C10_raw_prefix_match :
    (handle_update allOk (Payload.parsed (some ⟨1, some "u", some "/imagenes lindas"⟩))).trace.effects
        = [Effect.sendMessage 1 "Generando imagen... ⏳",
           Effect.imageGenCall "lindas" "1024x1024",
           Effect.sendPhotoUrl 1 "https://img.example/x.png" "Imagen: lindas"] ∧
    (handle_update allOk (Payload.parsed (some ⟨2, some "u", some "/helpme"⟩))).trace.effects
        = [Effect.sendMessage 2 help_text] :=
  ⟨rfl, rfl⟩

/-- Claim C5: for every `/imagen`, `/voz` or `/tts` input whose argument
(everything after the first space, stripped) is empty, the handler sends the
matching usage-reminder message and makes no capability-client call. -/
theorem C5_empty_arg_usage (env : Env) (msg : IncomingMessage)
    (harg : strip (partitionAfter (msg.text.getD "")) = "") :
    (startswith (msg.text.getD "") "/imagen" = true →
      (handle_update env (Payload.parsed (some msg))).trace.effects
        = [Effect.sendMessage msg.chatId "Usa: /imagen <descripción de la imagen>"] ∧
      (handle_update env (Payload.parsed (some msg))).trace.effects.filter
        Effect.isCapabilityCall = []) ∧
    ((startswith (msg.text.getD "") "/voz" || startswith (msg.text.getD "") "/tts") = true →
      (handle_update env (Payload.parsed (some msg))).trace.effects
        = [Effect.sendMessage msg.chatId "Usa: /voz <texto a convertir en audio>"] ∧
      (handle_update env (Payload.parsed (some msg))).trace.effects.filter
        Effect.isCapabilityCall = []) := by
  obtain ⟨cid, u, txt⟩ := msg
  cases txt with
  | none =>
      constructor <;> · intro h; simp at h
  | some s =>
      simp only [Option.getD_some] at harg ⊢
      constructor
      · intro h
        obtain ⟨r, rfl⟩ := sw_imagen_exists h
        simp only [pa_imagen] at harg
        cases hsm : env.sendMessageOk <;>
          simp [handle_update, run_handle, harg, trySend, hsm, Trace.empty, Effect.isCapabilityCall]
      · intro h
        simp only [Bool.or_eq_true] at h
        rcases h with h | h
        · obtain ⟨r, rfl⟩ := sw_voz_exists h
          simp only [pa_voz] at harg
          cases hsm : env.sendMessageOk <;>
            simp [handle_update, run_handle, harg, trySend, hsm, Trace.empty, Effect.isCapabilityCall]
        · obtain ⟨r, rfl⟩ := sw_tts_exists h
          simp only [pa_tts] at harg
          cases hsm : env.sendMessageOk <;>
            simp [handle_update, run_handle, harg, trySend, hsm, Trace.empty, Effect.isCapabilityCall]

/-- Witness for C5: concrete empty-argument inputs `"/imagen"`, `"/voz   "`
and `"/tts"` produce the usage hints and no capability call. -/
theorem C5_empty_arg_usage_witness :
    ((handle_update allOk (Payload.parsed (some ⟨1, some "u", some "/imagen"⟩))).trace.effects
        = [Effect.sendMessage 1 "Usa: /imagen <descripción de la imagen>"] ∧
     (handle_update allOk (Payload.parsed (some ⟨1, some "u", some "/imagen"⟩))).trace.effects.filter
        Effect.isCapabilityCall = []) ∧
    ((handle_update allOk (Payload.parsed (some ⟨2, some "u", some "/voz   "⟩))).trace.effects
        = [Effect.sendMessage 2 "Usa: /voz <texto a convertir en audio>"] ∧
     (handle_update allOk (Payload.parsed (some ⟨2, some "u", some "/voz   "⟩))).trace.effects.filter
        Effect.isCapabilityCall = []) ∧
    ((handle_update allOk (Payload.parsed (some ⟨3, none, some "/tts"⟩))).trace.effects
        = [Effect.sendMessage 3 "Usa: /voz <texto a convertir en audio>"] ∧
     (handle_update allOk (Payload.parsed (some ⟨3, none, some "/tts"⟩))).trace.effects.filter
        Effect.isCapabilityCall = []) :=
  ⟨(C5_empty_arg_usage allOk ⟨1, some "u", some "/imagen"⟩ rfl).1 rfl,
   (C5_empty_arg_usage allOk ⟨2, some "u", some "/voz   "⟩ rfl).2 rfl,
   (C5_empty_arg_usage allOk ⟨3, none, some "/tts"⟩ rfl).2 rfl⟩

/-- When every outbound send call returns normally, `run_handle` terminates
normally whatever the payload and the provider outcomes are. -/
theorem run_handle_ok_of_sends (env : Env) (payload : Payload)
    (hm : env.sendMessageOk = true) (hp : env.sendPhotoOk = true)
    (ha : env.sendAudioOk = true) (hc : env.sendChatActionOk = true) :
    ∃ t, run_handle env payload = Except.ok t := by
  cases payload with
  | malformed => exact ⟨_, rfl⟩
  | parsed m =>
    cases m with
    | none => exact ⟨_, rfl⟩
    | some msg =>
      simp only [run_handle, trySend, hm, hp, ha, hc, if_true]
      repeat' split
      all_goals simp_all [chatgpt_reply, generate_image, text_to_speech_save]

/-- Counterexample to claim C3 as stated: on a well-formed `/help` update,
if the outbound `send_message` call raises, the exception escapes
`handle_update` (no `"OK"` body) and the route yields an error status. -/
theorem C3_send_failure_escapes :
    (handle_update ⟨some "x", ImageOutcome.err, TtsOutcome.ok, false, true, true, true⟩
        (Payload.parsed (some ⟨1, some "u", some "/help"⟩))).response = none ∧
    (webhook_no_secret none ⟨some "x", ImageOutcome.err, TtsOutcome.ok, false, true, true, true⟩
        (Payload.parsed (some ⟨1, some "u", some "/help"⟩))).1 = HttpResponse.serverError :=
  ⟨rfl, rfl⟩

/-- Claim C3 (as amended): parse failures and provider failures never escape
the handler — for every payload (malformed ones included) and any provider
outcomes, as long as the outbound send calls themselves return normally,
`handle_update` terminates normally with the `"OK"` acknowledgment body.
Only a raising outbound send call escapes. -/
theorem C3_contained_failures (env : Env) (payload : Payload)
    (hm : env.sendMessageOk = true) (hp : env.sendPhotoOk = true)
    (ha : env.sendAudioOk = true) (hc : env.sendChatActionOk = true) :
    (handle_update env payload).response = some "OK" := by
  obtain ⟨t, ht⟩ := run_handle_ok_of_sends env payload hm hp ha hc
  simp [handle_update, ht]

/-- Witness for C3 (amended): with every provider failing but sends working,
a `/voz` request still ends in the `"OK"` acknowledgment. -/
theorem C3_contained_failures_witness :
    (handle_update ⟨none, ImageOutcome.err, TtsOutcome.failAfterFile, true, true, true, true⟩
        (Payload.parsed (some ⟨1, some "u", some "/voz hola"⟩))).response = some "OK" :=
  C3_contained_failures ⟨none, ImageOutcome.err, TtsOutcome.failAfterFile, true, true, true, true⟩
    (Payload.parsed (some ⟨1, some "u", some "/voz hola"⟩)) rfl rfl rfl rfl

/-- Claim C2 names a code bug: temporary files are not deleted on every exit
path.  Three leaks, evaluated on the embedded code: a `/voz` request whose
`send_audio` call raises leaves the mp3 on disk; a `/voz` request where
`tts.save` raises after `mkstemp` leaves the file even though the fallback
message is sent and the handler returns `"OK"`; an `/imagen` request whose
base64 `send_photo` call raises leaves the png on disk. -/
theorem C2_temp_file_leak :
    (handle_update ⟨some "x", ImageOutcome.ok none none, TtsOutcome.ok, true, true, false, true⟩
        (Payload.parsed (some ⟨7, some "ana", some "/voz hola"⟩))).trace.files = [0] ∧
    ((handle_update ⟨some "x", ImageOutcome.ok none none, TtsOutcome.failAfterFile, true, true, true, true⟩
        (Payload.parsed (some ⟨7, some "ana", some "/voz hola"⟩))).trace.files = [0] ∧
     (handle_update ⟨some "x", ImageOutcome.ok none none, TtsOutcome.failAfterFile, true, true, true, true⟩
        (Payload.parsed (some ⟨7, some "ana", some "/voz hola"⟩))).response = some "OK") ∧
    (handle_update ⟨some "x", ImageOutcome.ok none (some "QUJD"), TtsOutcome.ok, true, false, true, true⟩
        (Payload.parsed (some ⟨7, some "ana", some "/imagen un gato"⟩))).trace.files = [0] :=
  ⟨rfl, ⟨rfl, rfl⟩, rfl⟩

/-- Counterexample to claim C4 as stated: for `s = " gato"` (whose trimmed
form `"gato"` is non-empty), the one image-generation call carries the
stripped prompt `"gato"`, not `s` itself. -/
theorem C4_prompt_is_stripped :
    (handle_update allOk (Payload.parsed (some ⟨1, some "u", some ("/imagen " ++ " gato")⟩))).trace.effects.filter
        Effect.isImageCall = [Effect.imageGenCall "gato" "1024x1024"] ∧
    Effect.imageGenCall " gato" "1024x1024" ∉
      (handle_update allOk (Payload.parsed (some ⟨1, some "u", some ("/imagen " ++ " gato")⟩))).trace.effects := by
  exact ⟨rfl, by decide⟩

/-- Claim C4 (as amended): for `"/imagen " ++ s` with non-empty stripped `s`,
when the working-message and photo sends return normally, exactly one
image-generation call occurs, with the stripped `s` as prompt; a falsy result
yields the generic failure message; a result with the `http` prefix is
relayed as a photo by URL; any other result is written to a temporary file,
relayed as a photo from bytes, and the file no longer exists afterward. -/
theorem C4_imagen_flow (env : Env) (cid : Int) (u : Option String) (s : String)
    (hs : strip s ≠ "") (hm : env.sendMessageOk = true) (hp : env.sendPhotoOk = true) :
    (handle_update env (Payload.parsed (some ⟨cid, u, some ("/imagen " ++ s)⟩))).trace.effects.filter
        Effect.isImageCall = [Effect.imageGenCall (strip s) "1024x1024"] ∧
    (py_not_str (generate_image env (strip s) "1024x1024" Trace.empty).1 = true →
      (handle_update env (Payload.parsed (some ⟨cid, u, some ("/imagen " ++ s)⟩))).trace.effects
        = [Effect.sendMessage cid "Generando imagen... ⏳",
           Effect.imageGenCall (strip s) "1024x1024",
           Effect.sendMessage cid "No pude generar la imagen. Intenta de nuevo más tarde."] ∧
      (handle_update env (Payload.parsed (some ⟨cid, u, some ("/imagen " ++ s)⟩))).trace.files = []) ∧
    (∀ r, (generate_image env (strip s) "1024x1024" Trace.empty).1 = some r → r ≠ "" →
      startswith r "http" = true →
      (handle_update env (Payload.parsed (some ⟨cid, u, some ("/imagen " ++ s)⟩))).trace.effects
        = [Effect.sendMessage cid "Generando imagen... ⏳",
           Effect.imageGenCall (strip s) "1024x1024",
           Effect.sendPhotoUrl cid r ("Imagen: " ++ strip s)] ∧
      (handle_update env (Payload.parsed (some ⟨cid, u, some ("/imagen " ++ s)⟩))).trace.files = []) ∧
    (∀ r, (generate_image env (strip s) "1024x1024" Trace.empty).1 = some r → r ≠ "" →
      startswith r "http" = false →
      (handle_update env (Payload.parsed (some ⟨cid, u, some ("/imagen " ++ s)⟩))).trace.effects
        = [Effect.sendMessage cid "Generando imagen... ⏳",
           Effect.imageGenCall (strip s) "1024x1024",
           Effect.sendPhotoBytes cid 0 ("Imagen: " ++ strip s)] ∧
      (handle_update env (Payload.parsed (some ⟨cid, u, some ("/imagen " ++ s)⟩))).trace.files = [] ∧
      (handle_update env (Payload.parsed (some ⟨cid, u, some ("/imagen " ++ s)⟩))).trace.nextId = 1) := by
  have h0 : (startswith ("/imagen " ++ s) "/start" || startswith ("/imagen " ++ s) "/help") = false := rfl
  have h2 : startswith ("/imagen " ++ s) "/imagen" = true := rfl
  have h3 : partitionAfter ("/imagen " ++ s) = s := rfl
  refine ⟨?_, ?_, ?_, ?_⟩
  · cases hio : env.imageOutcome with
    | err =>
        simp [handle_update, run_handle, h0, h2, h3, hs, hm, trySend, generate_image, hio,
              py_not_str, Trace.empty, Effect.isImageCall]
    | ok url b64 =>
        cases hres : py_or_str url b64 with
        | none =>
            simp [handle_update, run_handle, h0, h2, h3, hs, hm, trySend, generate_image, hio,
                  hres, py_not_str, Trace.empty, Effect.isImageCall]
        | some rr =>
            by_cases hrr : rr = ""
            · simp [handle_update, run_handle, h0, h2, h3, hs, hm, trySend, generate_image, hio,
                    hres, hrr, py_not_str, Trace.empty, Effect.isImageCall]
            · by_cases hhttp : startswith rr "http" = true
              · simp [handle_update, run_handle, h0, h2, h3, hs, hm, hp, trySend, generate_image,
                      hio, hres, hrr, hhttp, py_not_str, Trace.empty, Effect.isImageCall]
              · simp [handle_update, run_handle, h0, h2, h3, hs, hm, hp, trySend, generate_image,
                      hio, hres, hrr, hhttp, py_not_str, unlink, Trace.empty, Effect.isImageCall]
  · intro hfalsy
    cases hio : env.imageOutcome with
    | err =>
        simp [handle_update, run_handle, h0, h2, h3, hs, hm, trySend, generate_image, hio,
              py_not_str, Trace.empty]
    | ok url b64 =>
        simp only [generate_image, hio] at hfalsy
        simp [handle_update, run_handle, h0, h2, h3, hs, hm, trySend, generate_image, hio,
              hfalsy, Trace.empty]
  · intro r hr hrne hhttp
    cases hio : env.imageOutcome with
    | err => simp [generate_image, hio] at hr
    | ok url b64 =>
        simp only [generate_image, hio] at hr
        simp [handle_update, run_handle, h0, h2, h3, hs, hm, hp, trySend, generate_image, hio,
              hr, hrne, hhttp, py_not_str, Trace.empty]
  · intro r hr hrne hhttp
    cases hio : env.imageOutcome with
    | err => simp [generate_image, hio] at hr
    | ok url b64 =>
        simp only [generate_image, hio] at hr
        simp [handle_update, run_handle, h0, h2, h3, hs, hm, hp, trySend, generate_image, hio,
              hr, hrne, hhttp, py_not_str, unlink, Trace.empty]

/-- Witness for C4 (amended): prompt `"gato"`, a URL-shaped provider result,
all sends working: one image call with prompt `"gato"`, a photo-by-URL relay,
and no temporary file afterwards. -/
theorem C4_imagen_flow_witness :
    (handle_update allOk (Payload.parsed (some ⟨1, some "u", some ("/imagen " ++ "gato")⟩))).trace.effects
        = [Effect.sendMessage 1 "Generando imagen... ⏳",
           Effect.imageGenCall (strip "gato") "1024x1024",
           Effect.sendPhotoUrl 1 "https://img.example/x.png" ("Imagen: " ++ strip "gato")] ∧
    (handle_update allOk (Payload.parsed (some ⟨1, some "u", some ("/imagen " ++ "gato")⟩))).trace.files = [] :=
  (C4_imagen_flow allOk 1 (some "u") "gato" (by decide) rfl rfl).2.2.1
    "https://img.example/x.png" rfl (by decide) rfl

/-- Claim C1: the dispatcher classifies by checking fixed prefixes in order —
`/start` or `/help` produce exactly the fixed help text and no
capability-client call; an `/imagen` text never reaches the chat or TTS
client; a `/voz` or `/tts` text never reaches the chat or image client; and
any text matching none of the prefixes is dispatched as a chat request
carrying the full text. -/
theorem C1_dispatch_order (env : Env) (msg : IncomingMessage) :
    ((startswith (msg.text.getD "") "/start" || startswith (msg.text.getD "") "/help") = true →
      (handle_update env (Payload.parsed (some msg))).trace.effects
        = [Effect.sendMessage msg.chatId help_text] ∧
      (handle_update env (Payload.parsed (some msg))).trace.effects.filter
        Effect.isCapabilityCall = []) ∧
    (startswith (msg.text.getD "") "/imagen" = true →
      (handle_update env (Payload.parsed (some msg))).trace.effects.filter
        Effect.isChatCall = [] ∧
      (handle_update env (Payload.parsed (some msg))).trace.effects.filter
        Effect.isTtsCall = []) ∧
    ((startswith (msg.text.getD "") "/voz" || startswith (msg.text.getD "") "/tts") = true →
      (handle_update env (Payload.parsed (some msg))).trace.effects.filter
        Effect.isChatCall = [] ∧
      (handle_update env (Payload.parsed (some msg))).trace.effects.filter
        Effect.isImageCall = []) ∧
    (startswith (msg.text.getD "") "/start" = false →
     startswith (msg.text.getD "") "/help" = false →
     startswith (msg.text.getD "") "/imagen" = false →
     startswith (msg.text.getD "") "/voz" = false →
     startswith (msg.text.getD "") "/tts" = false →
     env.sendChatActionOk = true →
      (handle_update env (Payload.parsed (some msg))).trace.effects.filter
        Effect.isChatCall = [Effect.chatCompletionCall (msg.text.getD "")]) := by
  refine ⟨?_, ?_, ?_, ?_⟩
  · intro h
    cases hsm : env.sendMessageOk <;>
      simp [handle_update, run_handle, h, trySend, hsm, Trace.empty, Effect.isCapabilityCall]
  · intro h
    obtain ⟨cid, u, txt⟩ := msg
    cases txt with
    | none => simp at h
    | some s =>
      simp only [Option.getD_some] at h
      obtain ⟨r, rfl⟩ := sw_imagen_exists h
      by_cases hpv : strip (String.mk (afterFirstSpace r)) = ""
      · cases hsm : env.sendMessageOk <;>
          simp [handle_update, run_handle, trySend, hsm, hpv, Trace.empty,
                Effect.isChatCall, Effect.isTtsCall]
      · cases hsm : env.sendMessageOk
        · simp [handle_update, run_handle, trySend, hsm, hpv, Trace.empty,
                Effect.isChatCall, Effect.isTtsCall]
        · cases hio : env.imageOutcome with
          | err =>
              simp [handle_update, run_handle, trySend, generate_image, hsm, hpv, hio,
                    py_not_str, Trace.empty, Effect.isChatCall, Effect.isTtsCall]
          | ok url b64 =>
              cases hres : py_or_str url b64 with
              | none =>
                  simp [handle_update, run_handle, trySend, generate_image, hsm, hpv, hio,
                        hres, py_not_str, Trace.empty, Effect.isChatCall, Effect.isTtsCall]
              | some rr =>
                  by_cases hrr : rr = ""
                  · simp [handle_update, run_handle, trySend, generate_image, hsm, hpv, hio,
                          hres, hrr, py_not_str, Trace.empty, Effect.isChatCall, Effect.isTtsCall]
                  · by_cases hhttp : startswith rr "http" = true <;>
                      cases hsp : env.sendPhotoOk <;>
                        simp [handle_update, run_handle, trySend, generate_image, unlink, hsm,
                              hpv, hio, hres, hrr, hhttp, hsp, py_not_str, Trace.empty,
                              Effect.isChatCall, Effect.isTtsCall]
  · intro h
    obtain ⟨cid, u, txt⟩ := msg
    cases txt with
    | none => simp at h
    | some s =>
      simp only [Option.getD_some, Bool.or_eq_true] at h
      have hcase : (∃ r, s = String.mk ('/' :: 'v' :: 'o' :: 'z' :: r)) ∨
          (∃ r, s = String.mk ('/' :: 't' :: 't' :: 's' :: r)) := by
        rcases h with h | h
        · exact Or.inl (sw_voz_exists h)
        · exact Or.inr (sw_tts_exists h)
      rcases hcase with ⟨r, rfl⟩ | ⟨r, rfl⟩ <;>
      · by_cases hpv : strip (String.mk (afterFirstSpace r)) = ""
        · cases hsm : env.sendMessageOk <;>
            simp [handle_update, run_handle, trySend, hsm, hpv, Trace.empty,
                  Effect.isChatCall, Effect.isImageCall]
        · cases hsm : env.sendMessageOk
          · simp [handle_update, run_handle, trySend, hsm, hpv, Trace.empty,
                  Effect.isChatCall, Effect.isImageCall]
          · cases htts : env.ttsOutcome <;> cases hsa : env.sendAudioOk <;>
              simp [handle_update, run_handle, trySend, text_to_speech_save, unlink, hsm, hpv,
                    htts, hsa, Trace.empty, Effect.isChatCall, Effect.isImageCall]
  · intro h1 h2 h3 h4 h5 hact
    cases hco : env.chatOutcome <;> cases hsm : env.sendMessageOk <;>
      simp [handle_update, run_handle, trySend, chatgpt_reply, h1, h2, h3, h4, h5, hact, hco,
            hsm, Trace.empty, Effect.isChatCall]

/-- Witness for C1: `"/start"` yields exactly the help text with no
capability call, and the free text `"hola"` is dispatched as a chat request
carrying the full text. -/
theorem C1_dispatch_order_witness :
    ((handle_update allOk (Payload.parsed (some ⟨1, some "u", some "/start"⟩))).trace.effects
        = [Effect.sendMessage 1 help_text] ∧
     (handle_update allOk (Payload.parsed (some ⟨1, some "u", some "/start"⟩))).trace.effects.filter
        Effect.isCapabilityCall = []) ∧
    (handle_update allOk (Payload.parsed (some ⟨2, some "u", some "hola"⟩))).trace.effects.filter
        Effect.isChatCall = [Effect.chatCompletionCall "hola"] :=
  ⟨(C1_dispatch_order allOk ⟨1, some "u", some "/start"⟩).1 rfl,
   (C1_dispatch_order allOk ⟨2, some "u", some "hola"⟩).2.2.2 rfl rfl rfl rfl rfl rfl⟩

/-- Claim C6: for a text matching no command prefix, exactly one
chat-completion call occurs, with the full text as prompt; the reply sent to
the chat is the client's value, which never raises and equals either the
stripped first-choice text (provider success) or the single fixed localized
fallback string (any provider failure) — exactly these two values. -/
theorem C6_chat_reply_total (env : Env) (msg : IncomingMessage)
    (h1 : startswith (msg.text.getD "") "/start" = false)
    (h2 : startswith (msg.text.getD "") "/help" = false)
    (h3 : startswith (msg.text.getD "") "/imagen" = false)
    (h4 : startswith (msg.text.getD "") "/voz" = false)
    (h5 : startswith (msg.text.getD "") "/tts" = false)
    (hact : env.sendChatActionOk = true) :
    (handle_update env (Payload.parsed (some msg))).trace.effects.filter Effect.isChatCall
        = [Effect.chatCompletionCall (msg.text.getD "")] ∧
    Effect.sendMessage msg.chatId (chatgpt_reply env (msg.text.getD "") Trace.empty).1
        ∈ (handle_update env (Payload.parsed (some msg))).trace.effects ∧
    (∀ c, env.chatOutcome = some c →
        (chatgpt_reply env (msg.text.getD "") Trace.empty).1 = strip c) ∧
    (env.chatOutcome = none →
        (chatgpt_reply env (msg.text.getD "") Trace.empty).1
          = "Lo siento, ocurrió un error al procesar la respuesta.") ∧
    ((∃ c, env.chatOutcome = some c ∧
        (chatgpt_reply env (msg.text.getD "") Trace.empty).1 = strip c) ∨
      (chatgpt_reply env (msg.text.getD "") Trace.empty).1
        = "Lo siento, ocurrió un error al procesar la respuesta.") := by
  refine ⟨?_, ?_, ?_, ?_, ?_⟩
  · cases hco : env.chatOutcome <;> cases hsm : env.sendMessageOk <;>
      simp [handle_update, run_handle, trySend, chatgpt_reply, h1, h2, h3, h4, h5, hact, hco,
            hsm, Trace.empty, Effect.isChatCall]
  · cases hco : env.chatOutcome <;> cases hsm : env.sendMessageOk <;>
      simp [handle_update, run_handle, trySend, chatgpt_reply, h1, h2, h3, h4, h5, hact, hco,
            hsm, Trace.empty]
  · intro c hc
    simp [chatgpt_reply, hc]
  · intro hc
    simp [chatgpt_reply, hc]
  · cases hco : env.chatOutcome with
    | none => exact Or.inr (by simp [chatgpt_reply, hco])
    | some c => exact Or.inl ⟨c, rfl, by simp [chatgpt_reply, hco]⟩

/-- Witness for C6: on the free text `"qué tal"` with a provider success
`"  ¡Hola!  "`, one chat call occurs with the full text and the stripped
reply is sent. -/
theorem C6_chat_reply_total_witness :
    (handle_update ⟨some "  ¡Hola!  ", ImageOutcome.err, TtsOutcome.ok, true, true, true, true⟩
        (Payload.parsed (some ⟨4, none, some "qué tal"⟩))).trace.effects.filter Effect.isChatCall
      = [Effect.chatCompletionCall "qué tal"] ∧
    Effect.sendMessage 4
        (chatgpt_reply ⟨some "  ¡Hola!  ", ImageOutcome.err, TtsOutcome.ok, true, true, true, true⟩
          "qué tal" Trace.empty).1
      ∈ (handle_update ⟨some "  ¡Hola!  ", ImageOutcome.err, TtsOutcome.ok, true, true, true, true⟩
          (Payload.parsed (some ⟨4, none, some "qué tal"⟩))).trace.effects :=
  ⟨(C6_chat_reply_total ⟨some "  ¡Hola!  ", ImageOutcome.err, TtsOutcome.ok, true, true, true, true⟩
      ⟨4, none, some "qué tal"⟩ rfl rfl rfl rfl rfl rfl).1,
   (C6_chat_reply_total ⟨some "  ¡Hola!  ", ImageOutcome.err, TtsOutcome.ok, true, true, true, true⟩
      ⟨4, none, some "qué tal"⟩ rfl rfl rfl rfl rfl rfl).2.1⟩

/-- Claim C7: with a non-empty secret configured, the secreted route with the
matching segment dispatches normally, a non-matching segment gives 403 with
no dispatch, and the plain route gives 404; with no secret configured, the
plain route dispatches and the secreted route gives 403. -/
theorem C7_webhook_routing (sec seg : String) (hsec : sec ≠ "")
    (env : Env) (payload : Payload) :
    webhook_with_secret (some sec) sec env payload = respond (handle_update env payload) ∧
    (seg ≠ sec →
      webhook_with_secret (some sec) seg env payload = (HttpResponse.forbidden, Trace.empty)) ∧
    webhook_no_secret (some sec) env payload = (HttpResponse.notFound, Trace.empty) ∧
    webhook_no_secret none env payload = respond (handle_update env payload) ∧
    webhook_with_secret none seg env payload = (HttpResponse.forbidden, Trace.empty) := by
  refine ⟨?_, ?_, ?_, ?_, ?_⟩
  · simp [webhook_with_secret, py_truthy, hsec]
  · intro hne
    simp [webhook_with_secret, py_truthy, hsec, hne]
  · simp [webhook_no_secret, py_truthy, hsec]
  · simp [webhook_no_secret, py_truthy]
  · simp [webhook_with_secret, py_truthy]

/-- Witness for C7: the spec's scenario with secret `"abc123"`, the wrong
segment `"wrong"` and a valid text payload. -/
theorem C7_webhook_routing_witness :
    webhook_with_secret (some "abc123") "abc123" allOk
        (Payload.parsed (some ⟨1, some "u", some "hola"⟩))
      = respond (handle_update allOk (Payload.parsed (some ⟨1, some "u", some "hola"⟩))) ∧
    webhook_with_secret (some "abc123") "wrong" allOk
        (Payload.parsed (some ⟨1, some "u", some "hola"⟩))
      = (HttpResponse.forbidden, Trace.empty) ∧
    webhook_no_secret (some "abc123") allOk
        (Payload.parsed (some ⟨1, some "u", some "hola"⟩))
      = (HttpResponse.notFound, Trace.empty) :=
  ⟨(C7_webhook_routing "abc123" "wrong" (by decide) allOk
      (Payload.parsed (some ⟨1, some "u", some "hola"⟩))).1,
   (C7_webhook_routing "abc123" "wrong" (by decide) allOk
      (Payload.parsed (some ⟨1, some "u", some "hola"⟩))).2.1 (by decide),
   (C7_webhook_routing "abc123" "wrong" (by decide) allOk
      (Payload.parsed (some ⟨1, some "u", some "hola"⟩))).2.2.1⟩

/-- Counterexample to claim C9 as stated: on a non-text message
(`message.text` absent) the handler is not a silent no-op — it sends a typing
action, calls the chat client with the empty prompt, and sends a reply. -/
theorem C9_nontext_not_silent :
    (handle_update allOk (Payload.parsed (some ⟨5, some "u", none⟩))).trace.effects
      = [Effect.sendChatAction 5, Effect.chatCompletionCall "",
         Effect.sendMessage 5 "¡Hola!"] ∧
    (handle_update allOk (Payload.parsed (some ⟨5, some "u", none⟩))).trace.effects ≠ [] :=
  ⟨rfl, by decide⟩

/-- Claim C9 (as amended): a non-text message is treated as empty text and
falls through to the chat branch: when the typing-action send returns
normally the handler emits the typing action, one chat-completion call with
the empty prompt, and the resulting reply message — not a silent no-op. -/
theorem C9_nontext_chat_fallthrough (env : Env) (msg : IncomingMessage)
    (htext : msg.text = none) (hact : env.sendChatActionOk = true) :
    (handle_update env (Payload.parsed (some msg))).trace.effects
      = [Effect.sendChatAction msg.chatId, Effect.chatCompletionCall "",
         Effect.sendMessage msg.chatId (chatgpt_reply env "" Trace.empty).1] := by
  obtain ⟨cid, u, txt⟩ := msg
  cases txt with
  | some s => simp at htext
  | none =>
    cases hco : env.chatOutcome <;> cases hsm : env.sendMessageOk <;>
      simp [handle_update, run_handle, trySend, chatgpt_reply, hact, hco, hsm, Trace.empty]

/-- Witness for C9 (amended): the concrete non-text message of the
counterexample, through the theorem. -/
theorem C9_nontext_chat_fallthrough_witness :
    (handle_update allOk (Payload.parsed (some ⟨6, some "u", none⟩))).trace.effects
      = [Effect.sendChatAction 6, Effect.chatCompletionCall "",
         Effect.sendMessage 6 (chatgpt_reply allOk "" Trace.empty).1] :=
  C9_nontext_chat_fallthrough allOk ⟨6, some "u", none⟩ rfl rfl
